import Mathlib

/-!
Shallow embedding of the artifact lineage-and-acceptance pipeline of the Uft
repository: the `LineageHasher`, `BeliefEvolutionGraph`, `AGIFileSystem`,
`Gatekeeper` and `ModuleAcceptanceDaemon` modules, together with theorems
settling the behavioural claims about them.

Modelling conventions, used uniformly below:
* Python `dict` values are modelled as insertion-ordered association lists
  (`SMap`): assignment to an existing key replaces the value in place,
  assignment to a fresh key appends at the end, exactly as CPython dicts
  behave.
* `time.time()` results are modelled as explicit `Nat` arguments (`now`):
  every embedded operation that reads the clock receives the instant as a
  parameter.  `time.strftime` over such an instant is modelled by the
  function `pyStrftime`, whose only relevant property is that it is a
  function of the timestamp.
* `hashlib.sha256(...).hexdigest()` is a Python standard-library primitive,
  not code of this repository; it is modelled as an explicit function
  parameter `sha256 : String → String` threaded through the definitions.
  All theorems hold for every choice of this parameter, in particular for
  the real SHA-256.
* Calls to the injected `TelemetryService` collaborator
  (`add_diary_entry`) and to `logging` only append to an external activity
  log; no code under verification reads them back, so they are elided.
* Metadata dictionaries (`Dict[str, Any]` in the source) are modelled with
  `String` values; every claim under verification exercises them only
  through insertion, update and key-membership, never through a
  value-type-specific operation.
-/

/-! ## Python dictionaries as insertion-ordered association lists -/

/-- An insertion-ordered map from strings, modelling a Python `dict`. -/
def SMap (α : Type) : Type := List (String × α)

namespace SMap

/-- The empty dictionary. -/
def empty {α : Type} : SMap α := []

/-- Assignment `d[k] = v`: replace the value of an existing key in place, or append a
fresh binding at the end, as CPython dict assignment does. -/
def set {α : Type} : SMap α → String → α → SMap α
  | [], k, v => [(k, v)]
  | (k', v') :: rest, k, v =>
    if k' = k then (k, v) :: rest else (k', v') :: set rest k v

/-- Lookup `d.get(k)` / `d[k]`. -/
def get? {α : Type} : SMap α → String → Option α
  | [], _ => none
  | (k', v) :: rest, k => if k' = k then some v else get? rest k

/-- Membership `k in d`. -/
def hasKey {α : Type} (d : SMap α) (k : String) : Bool :=
  (d.get? k).isSome

/-- Update `d.update(d2)`: fold the bindings of `d2` into `d`, left to right. -/
def updateWith {α : Type} (d d2 : SMap α) : SMap α :=
  d2.foldl (fun acc p => acc.set p.1 p.2) d

/-- Number of entries (used only to compare key-set sizes). -/
def size {α : Type} (d : SMap α) : Nat := d.length

/-- Python truthiness of a dict: non-empty. -/
def nonEmpty {α : Type} : SMap α → Bool
  | [] => false
  | _ :: _ => true

instance {α : Type} [DecidableEq α] : DecidableEq (SMap α) :=
  inferInstanceAs (DecidableEq (List (String × α)))

instance {α : Type} [Repr α] : Repr (SMap α) :=
  inferInstanceAs (Repr (List (String × α)))

theorem get?_set_self {α : Type} (d : SMap α) (k : String) (v : α) :
    (d.set k v).get? k = some v := by
  induction d with
  | nil => simp [set, get?]
  | cons hd tl ih =>
    obtain ⟨k', v'⟩ := hd
    by_cases h : k' = k
    · simp [set, h, get?]
    · simpa [set, h, get?] using ih

theorem length_set {α : Type} (d : SMap α) (k : String) (v : α)
    (h : d.hasKey k = true) : (d.set k v).length = d.length := by
  induction d with
  | nil => simp [hasKey, get?] at h
  | cons hd tl ih =>
    obtain ⟨k', v'⟩ := hd
    by_cases hk : k' = k
    · simp [set, hk]
    · simp only [hasKey, get?, hk, if_neg, not_false_iff] at h
      simp [set, hk, ih h]

end SMap

/-- String-valued metadata dictionary (`Dict[str, Any]` in the source). -/
abbrev StrDict := SMap String

/-! ## Shared primitives -/

/-- Timestamps: the value of `time.time()` at some instant. -/
abbrev Timestamp := Nat

/-- Models `time.strftime('%Y-%m-%dT%H:%M:%SZ', time.gmtime(t))`: a fixed
function of the timestamp.  No claim depends on the concrete format, only on
the derived field being determined by the numeric timestamp. -/
def pyStrftime (t : Timestamp) : String := toString t ++ "Z"

/-- Python `sorted` on a list of strings (lexicographic order on strings,
which `Mathlib` provides as the `LinearOrder String` instance). -/
def pySorted (l : List String) : List String :=
  l.insertionSort (· ≤ ·)

/-- Python `"".join(l)`. -/
def pyJoin (l : List String) : String := l.foldl (· ++ ·) ""

/-- Python string truncation used for previews throughout the source:
`s[:n] + "..." if len(s) > n else s`. -/
def pyPreview (s : String) (n : Nat) : String :=
  if s.length > n then s.take n ++ "..." else s

/-! ## LineageHasher (`src/Lineage_hasher.py`)

Cryptographic ancestry tracking.  State: `hash_records`, a dict from
artifact id to its lineage record. -/

/-- One entry of `LineageHasher.hash_records` (`record_artifact_hash`,
lines 97-109 of the source).  `artifact_size_bytes` is
`len(content_hash) * 0.5` in the source, a Python float; it is modelled
exactly as a rational. -/
structure LineageRecord where
  artifact_id : String
  artifact_type : String
  content_hash : String
  chain_hash : String
  parent_hashes : List String
  timestamp : Timestamp
  iso_timestamp : String
  metadata : StrDict
  artifact_size_bytes : ℚ
  content_preview : Option String
  dominant_traits : Option (List StrDict)
  deriving Repr, DecidableEq

/-- State of a `LineageHasher` instance. -/
structure LineageHasher where
  hash_records : SMap LineageRecord
  deriving Repr, DecidableEq

namespace LineageHasher

/-- Fresh instance (`__init__`). -/
def init : LineageHasher := ⟨SMap.empty⟩

/-- Embeds `hash_content` for string content (the only content type the verified
claims exercise): SHA-256 over the UTF-8 bytes, with the optional
timestamp-salt toggle.  The dict/list canonicalization branch of the source
applies only to non-string content and is not needed by any claim. -/
def hash_content (sha256 : String → String) (content : String)
    (salted : Bool := false) (now : Timestamp := 0) : String :=
  if salted then sha256 (content ++ toString now) else sha256 content

/-- Embeds `record_artifact_hash` (source lines 65-120).  `now` is the value of
`time.time()` at the call.  Returns the record together with the updated
hasher state (`hash_records[artifact_id] = record`). -/
def record_artifact_hash (sha256 : String → String) (h : LineageHasher)
    (artifact_id artifact_type content_hash : String)
    (parent_hashes : Option (List String) := none)
    (metadata : Option StrDict := none)
    (content_preview : Option String := none)
    (dominant_traits : Option (List StrDict) := none)
    (now : Timestamp := 0) : LineageRecord × LineageHasher :=
  let iso_timestamp := pyStrftime now
  -- `if parent_hashes:` — both `None` and `[]` are falsy
  let chain_hash :=
    match parent_hashes with
    | some (p :: ps) =>
      let sorted_parent_hashes := pySorted (p :: ps)
      let parent_chain_data := pyJoin sorted_parent_hashes ++ toString now
      sha256 (content_hash ++ parent_chain_data)
    | _ => content_hash
  let artifact_size_bytes : ℚ := (content_hash.length : ℚ) * (1 / 2)
  -- `if content_preview is None and metadata and "content" in metadata:`
  let content_preview :=
    match content_preview, metadata with
    | none, some md =>
      if md.nonEmpty && md.hasKey "content" then
        match md.get? "content" with
        | some c => some (pyPreview c 100)
        | none => none
      else none
    | cp, _ => cp
  let record : LineageRecord := {
    artifact_id := artifact_id
    artifact_type := artifact_type
    content_hash := content_hash
    chain_hash := chain_hash
    parent_hashes := parent_hashes.getD []
    timestamp := now
    iso_timestamp := iso_timestamp
    metadata := metadata.getD SMap.empty
    artifact_size_bytes := artifact_size_bytes
    content_preview := content_preview
    dominant_traits := dominant_traits }
  (record, ⟨h.hash_records.set artifact_id record⟩)

/-- Embeds `get_artifact_hash_record`. -/
def get_artifact_hash_record (h : LineageHasher) (artifact_id : String) :
    Option LineageRecord :=
  h.hash_records.get? artifact_id

/-- Embeds `verify_lineage_chain` (source lines 139-192): the record must exist and
every declared parent hash must match the `content_hash` of some existing
record. -/
def verify_lineage_chain (h : LineageHasher) (artifact_id : String) : Bool :=
  match h.get_artifact_hash_record artifact_id with
  | none => false
  | some current_record =>
    current_record.parent_hashes.all (fun parent_hash =>
      h.hash_records.any (fun p => p.2.content_hash = parent_hash))

end LineageHasher

/-! ## BeliefEvolutionGraph (`src/Believe_evolution_graph.py`)

State: `nodes` (dict node id → node data) and `edges` (list of edge
records).  `add_node` and `update_node` also call
`lineage_hasher.record_artifact_hash` on the injected hasher, so the graph
operations thread the `LineageHasher` state alongside the graph. -/

/-- One entry of `BeliefEvolutionGraph.nodes` (source lines 55-65). -/
structure GraphNode where
  id : String
  type : String
  content : String
  status : String
  creation_timestamp : Timestamp
  iso_creation_timestamp : String
  last_updated_timestamp : Timestamp
  iso_last_updated_timestamp : String
  metadata : StrDict
  deriving Repr, DecidableEq

/-- One entry of `BeliefEvolutionGraph.edges` (source lines 189-197). -/
structure GraphEdge where
  id : String
  source : String
  target : String
  type : String
  creation_timestamp : Timestamp
  iso_creation_timestamp : String
  metadata : StrDict
  deriving Repr, DecidableEq

/-- State of a `BeliefEvolutionGraph` instance. -/
structure BeliefEvolutionGraph where
  nodes : SMap GraphNode
  edges : List GraphEdge
  deriving Repr, DecidableEq

namespace BeliefEvolutionGraph

/-- Fresh instance (`__init__`). -/
def init : BeliefEvolutionGraph := ⟨SMap.empty, []⟩

/-- Embeds `get_node`. -/
def get_node (g : BeliefEvolutionGraph) (node_id : String) : Option GraphNode :=
  g.nodes.get? node_id

/-- Embeds `get_edges_from_node`. -/
def get_edges_from_node (g : BeliefEvolutionGraph) (node_id : String) :
    List GraphEdge :=
  g.edges.filter (fun edge => edge.source = node_id)

/-- Embeds `get_edges_to_node`. -/
def get_edges_to_node (g : BeliefEvolutionGraph) (node_id : String) :
    List GraphEdge :=
  g.edges.filter (fun edge => edge.target = node_id)

/-- Embeds `update_node` (source lines 93-161).  Applies only the supplied deltas;
note that the source sets `metadata_changed = True` whenever `new_metadata`
is not `None`, without comparing the dict contents.  On any change it bumps
`last_updated_timestamp` to `now` and records an update in the lineage
hasher; otherwise it returns `false` and leaves all state untouched.
Result: `(changed, graph, hasher)`. -/
def update_node (sha256 : String → String) (now : Timestamp)
    (g : BeliefEvolutionGraph) (hasher : LineageHasher) (node_id : String)
    (new_content : Option String := none) (new_status : Option String := none)
    (new_metadata : Option StrDict := none)
    (updater_id : String := "BeliefEvolutionGraph_Internal") :
    Bool × BeliefEvolutionGraph × LineageHasher :=
  match g.nodes.get? node_id with
  | none => (false, g, hasher)
  | some node =>
    let old_content := node.content
    let old_status := node.status
    -- content delta: applied only if supplied and different
    let content_changed := new_content.isSome && new_content ≠ some old_content
    let node := match new_content with
      | some c => if c ≠ old_content then { node with content := c } else node
      | none => node
    -- status delta: applied only if supplied and different
    let status_changed := new_status.isSome && new_status ≠ some old_status
    let node := match new_status with
      | some s => if s ≠ old_status then { node with status := s } else node
      | none => node
    -- metadata delta: `metadata_changed = True` whenever supplied at all
    let metadata_changed := new_metadata.isSome
    let node := match new_metadata with
      | some md => { node with metadata := node.metadata.updateWith md }
      | none => node
    if content_changed || status_changed || metadata_changed then
      let node := { node with
        last_updated_timestamp := now
        iso_last_updated_timestamp := pyStrftime now }
      let (_, hasher') := hasher.record_artifact_hash sha256 node_id
        ("graph_node_update_" ++ node.type)
        (LineageHasher.hash_content sha256 node.content)
        (some [LineageHasher.hash_content sha256 old_content])
        (some [("node_type", node.type), ("updater_id", updater_id),
               ("status_change",
                 if status_changed then
                   old_status ++ "->" ++ (new_status.getD "None")
                 else "None")])
        none none now
      (true, { g with nodes := g.nodes.set node_id node }, hasher')
    else
      (false, g, hasher)

/-- Embeds `update_node_status` (source lines 163-165). -/
def update_node_status (sha256 : String → String) (now : Timestamp)
    (g : BeliefEvolutionGraph) (hasher : LineageHasher) (node_id : String)
    (new_status : String)
    (updater_id : String := "BeliefEvolutionGraph_Internal") :
    Bool × BeliefEvolutionGraph × LineageHasher :=
  update_node sha256 now g hasher node_id none (some new_status) none updater_id

/-- Embeds `add_edge` (source lines 168-208).  Rejected (returns `none`, appends
nothing) when either endpoint is absent; otherwise appends the edge record
and returns its id, derived from source, target, type and timestamp. -/
def add_edge (sha256 : String → String)
    (g : BeliefEvolutionGraph) (source_node_id target_node_id edge_type : String)
    (timestamp : Option Timestamp := none) (metadata : Option StrDict := none)
    (now : Timestamp := 0) : Option String × BeliefEvolutionGraph :=
  if g.nodes.hasKey source_node_id && g.nodes.hasKey target_node_id then
    let ts := timestamp.getD now
    let edge_id := sha256 (source_node_id ++ "-" ++ target_node_id ++ "-" ++
      edge_type ++ "-" ++ toString ts)
    let edge_data : GraphEdge := {
      id := edge_id
      source := source_node_id
      target := target_node_id
      type := edge_type
      creation_timestamp := ts
      iso_creation_timestamp := pyStrftime ts
      metadata := metadata.getD SMap.empty }
    (some edge_id, { g with edges := g.edges ++ [edge_data] })
  else
    (none, g)

/-- The result of `add_node`: the source returns the node id (a `str`) on
insertion but the `update_node` boolean when the id already exists. -/
inductive AddNodeResult where
  | inserted (node_id : String)
  | updated (changed : Bool)
  deriving Repr, DecidableEq

/-- Embeds `add_node` (source lines 32-90).  When the id already exists it returns
`update_node(node_id, content, status, metadata)` directly — the supplied
`parent_node_id` is never consulted on that path.  On insertion it stores
the node, records a lineage hash, and adds a `parent_of` edge when
`parent_node_id` is supplied and present. -/
def add_node (sha256 : String → String)
    (g : BeliefEvolutionGraph) (hasher : LineageHasher)
    (node_id node_type content : String) (status : String := "active")
    (timestamp : Option Timestamp := none) (metadata : Option StrDict := none)
    (parent_node_id : Option String := none) (now : Timestamp := 0) :
    AddNodeResult × BeliefEvolutionGraph × LineageHasher :=
  if g.nodes.hasKey node_id then
    let (changed, g', hasher') :=
      update_node sha256 now g hasher node_id (some content) (some status) metadata
    (.updated changed, g', hasher')
  else
    let ts := timestamp.getD now
    let node_data : GraphNode := {
      id := node_id
      type := node_type
      content := content
      status := status
      creation_timestamp := ts
      iso_creation_timestamp := pyStrftime ts
      last_updated_timestamp := ts
      iso_last_updated_timestamp := pyStrftime ts
      metadata := metadata.getD SMap.empty }
    let g' := { g with nodes := g.nodes.set node_id node_data }
    let (_, hasher') := hasher.record_artifact_hash sha256 node_id
      ("graph_node_" ++ node_type)
      (LineageHasher.hash_content sha256 content)
      none
      (some [("node_type", node_type), ("status", status),
             ("content_preview", content.take 100)])
      none none now
    -- `if parent_node_id and parent_node_id in self.nodes:`
    let g'' := match parent_node_id with
      | some pid =>
        if g'.nodes.hasKey pid then
          (add_edge sha256 g' pid node_id "parent_of" (some ts) none now).2
        else g'
      | none => g'
    (.inserted node_id, g'', hasher')

end BeliefEvolutionGraph

/-- The dict of values collected by `get_subgraph` before `list(...)`. -/
def SMap.values {α : Type} (d : SMap α) : List α := d.map Prod.snd

/-- Result of `get_subgraph`: `{"nodes": list(sub_nodes.values()), "edges": sub_edges}`. -/
structure Subgraph where
  nodes : List GraphNode
  edges : List GraphEdge
  deriving Repr, DecidableEq

namespace BeliefEvolutionGraph

/-- The `while queue:` loop of `get_subgraph` (source lines 284-302), with
the queue, the `visited` set and the `sub_nodes` dict explicit.  The loop
always terminates: every enqueue freshly adds an edge endpoint to
`visited`, so the number of iterations is at most `1 + 2 * |edges|`; the
structural `fuel` argument is instantiated with that bound by
`get_subgraph`, so the fuel never runs out. -/
def subgraphLoop (g : BeliefEvolutionGraph) (radius : Nat) :
    Nat → List (String × Nat) → List String → SMap GraphNode → SMap GraphNode
  | 0, _, _, sub_nodes => sub_nodes
  | _ + 1, [], _, sub_nodes => sub_nodes
  | fuel + 1, (current_node_id, current_depth) :: queue, visited, sub_nodes =>
    let sub_nodes := match g.get_node current_node_id with
      | some node_data => sub_nodes.set current_node_id node_data
      | none => sub_nodes
    if current_depth < radius then
      -- outgoing edges
      let step := (g.get_edges_from_node current_node_id).foldl
        (fun (qv : List (String × Nat) × List String) edge =>
          if qv.2.contains edge.target then qv
          else (qv.1 ++ [(edge.target, current_depth + 1)], edge.target :: qv.2))
        (queue, visited)
      -- incoming edges (for a more complete neighborhood)
      let step := (g.get_edges_to_node current_node_id).foldl
        (fun (qv : List (String × Nat) × List String) edge =>
          if qv.2.contains edge.source then qv
          else (qv.1 ++ [(edge.source, current_depth + 1)], edge.source :: qv.2))
        step
      subgraphLoop g radius fuel step.1 step.2 sub_nodes
    else
      subgraphLoop g radius fuel queue visited sub_nodes

/-- Embeds `get_subgraph` (source lines 270-318): BFS over both edge directions up
to `radius` hops, then every edge whose endpoints are both among the
collected nodes. -/
def get_subgraph (g : BeliefEvolutionGraph) (center_node_id : String)
    (radius : Nat := 2) : Subgraph :=
  let fuel := 2 * g.edges.length + 1
  let sub_nodes :=
    subgraphLoop g radius fuel [(center_node_id, 0)] [center_node_id] SMap.empty
  let sub_edges := g.edges.filter
    (fun edge => sub_nodes.hasKey edge.source && sub_nodes.hasKey edge.target)
  ⟨sub_nodes.values, sub_edges⟩

end BeliefEvolutionGraph

/-- One public mutating call on a `BeliefEvolutionGraph`, with every
argument the caller supplies (used to quantify over arbitrary operation
sequences). -/
inductive GraphOp where
  | addNode (node_id node_type content status : String)
      (timestamp : Option Timestamp) (metadata : Option StrDict)
      (parent_node_id : Option String) (now : Timestamp)
  | updateNode (node_id : String) (new_content new_status : Option String)
      (new_metadata : Option StrDict) (updater_id : String) (now : Timestamp)
  | addEdge (source_node_id target_node_id edge_type : String)
      (timestamp : Option Timestamp) (metadata : Option StrDict)
      (now : Timestamp)

/-- Apply one operation to a graph-and-hasher state, discarding the returned
value. -/
def GraphOp.apply (sha256 : String → String) :
    GraphOp → BeliefEvolutionGraph × LineageHasher →
    BeliefEvolutionGraph × LineageHasher
  | .addNode node_id node_type content status timestamp metadata parent now,
    (g, h) =>
    let r := BeliefEvolutionGraph.add_node sha256 g h node_id node_type content
      status timestamp metadata parent now
    (r.2.1, r.2.2)
  | .updateNode node_id new_content new_status new_metadata updater_id now,
    (g, h) =>
    let r := BeliefEvolutionGraph.update_node sha256 now g h node_id
      new_content new_status new_metadata updater_id
    (r.2.1, r.2.2)
  | .addEdge source_node_id target_node_id edge_type timestamp metadata now,
    (g, h) =>
    let r := BeliefEvolutionGraph.add_edge sha256 g source_node_id
      target_node_id edge_type timestamp metadata now
    (r.2, h)

/-- Run a sequence of graph operations from a starting state. -/
def GraphOp.run (sha256 : String → String) (ops : List GraphOp)
    (st : BeliefEvolutionGraph × LineageHasher) :
    BeliefEvolutionGraph × LineageHasher :=
  ops.foldl (fun acc op => op.apply sha256 acc) st

/-- Both endpoints of every edge are present as nodes. -/
def EdgesValid (g : BeliefEvolutionGraph) : Prop :=
  ∀ e ∈ g.edges, g.nodes.hasKey e.source = true ∧ g.nodes.hasKey e.target = true

/-! ## AGIFileSystem (`src/Agi_file_system.py`)

Versioned artifact store.  State: `files_metadata` plus the injected
`LineageHasher` and `BeliefEvolutionGraph` collaborators, whose states the
store operations mutate.  The physical artifact write
(`open(file_path, 'w')` + `json.dump`) is an operating-system effect; it is
modelled by an explicit `writeResult : Except String Unit` argument — `.ok`
when the write succeeds, `.error msg` when it raises, in which case control
transfers to the `except` clause of the source. -/

/-- One entry of `AGIFileSystem.files_metadata` (`add_file`, source lines
70-84).  Note that `parent_file_id` is a top-level key of this record. -/
structure FileRecord where
  file_id : String
  file_name : String
  file_type : String
  content_hash : String
  creator_id : String
  creation_timestamp : Timestamp
  iso_creation_timestamp : String
  last_modified_timestamp : Timestamp
  iso_last_modified_timestamp : String
  parent_file_id : Option String
  status : String
  metadata : StrDict
  content_preview : String
  deriving Repr, DecidableEq

/-- State of an `AGIFileSystem` instance together with its injected
stateful collaborators. -/
structure AGIFileSystem where
  files_metadata : SMap FileRecord
  lineage_hasher : LineageHasher
  belief_evolution_graph : BeliefEvolutionGraph
  deriving Repr, DecidableEq

/-- What `add_file` / `update_file` return: the metadata record on success,
or the `{"status": "failed", "message": str(e)}` dict from the `except`
clause. -/
inductive StoreResult where
  | ok (record : FileRecord)
  | failed (message : String)
  deriving Repr, DecidableEq

namespace AGIFileSystem

/-- Fresh instance over fresh collaborators. -/
def init : AGIFileSystem :=
  ⟨SMap.empty, LineageHasher.init, BeliefEvolutionGraph.init⟩

/-- Python truthiness of an optional metadata argument: `not metadata` is
true for both `None` and the empty dict. -/
def metadataFalsy : Option StrDict → Bool
  | none => true
  | some d => !d.nonEmpty

/-- Embeds `add_file` (source lines 37-142).  `content` is taken as a string (the
`isinstance(content, (str, bytes))` branch; the claims under verification
only store string content).  `now` models the `time.time()` calls at entry.
The metadata record is inserted into `files_metadata` *before* the `try`
block; on a write failure the `except` clause returns a failure dict
without removing that entry, and the lineage record and the graph node are
never created (they sit after the write inside the `try`). -/
def add_file (sha256 : String → String) (fs : AGIFileSystem)
    (file_name file_type content creator_id : String)
    (parent_file_id : Option String := none)
    (metadata : Option StrDict := none)
    (now : Timestamp := 0)
    (writeResult : Except String Unit := .ok ()) :
    StoreResult × AGIFileSystem :=
  let file_id := sha256 (file_name ++ "-" ++ file_type ++ "-" ++ toString now
    ++ "-" ++ creator_id)
  let content_str := content
  let content_hash := LineageHasher.hash_content sha256 content_str
  let file_metadata : FileRecord := {
    file_id := file_id
    file_name := file_name
    file_type := file_type
    content_hash := content_hash
    creator_id := creator_id
    creation_timestamp := now
    iso_creation_timestamp := pyStrftime now
    last_modified_timestamp := now
    iso_last_modified_timestamp := pyStrftime now
    parent_file_id := parent_file_id
    status := "stored"
    metadata := metadata.getD SMap.empty
    content_preview := pyPreview content_str 200 }
  -- `self.files_metadata[file_id] = file_metadata` — before the try block
  let fs := { fs with files_metadata := fs.files_metadata.set file_id file_metadata }
  match writeResult with
  | .error e =>
    -- `except Exception as e: ... return {"status": "failed", ...}`
    (.failed e, fs)
  | .ok _ =>
    -- `if parent_file_id and parent_file_id in self.files_metadata:`
    let parent_hashes : List String :=
      match parent_file_id with
      | some pid =>
        match fs.files_metadata.get? pid with
        | some pmeta => [pmeta.content_hash]
        | none => []
      | none => []
    let (_, hasher') := fs.lineage_hasher.record_artifact_hash sha256 file_id
      file_type content_hash (some parent_hashes)
      (some [("file_name", file_name), ("creator_id", creator_id)])
      (some file_metadata.content_preview) none now
    let (_, g', hasher'') := BeliefEvolutionGraph.add_node sha256
      fs.belief_evolution_graph hasher' file_id file_type
      file_metadata.content_preview "active" (some now)
      (some [("file_name", file_name), ("creator_id", creator_id),
             ("content_hash", content_hash)])
      none now
    -- `if parent_file_id:` — a derived_from edge back to the parent
    let g'' := match parent_file_id with
      | some pid =>
        (BeliefEvolutionGraph.add_edge sha256 g' pid file_id "derived_from"
          (some now) none now).2
      | none => g'
    (.ok file_metadata,
     { files_metadata := fs.files_metadata
       lineage_hasher := hasher''
       belief_evolution_graph := g'' })

/-- Embeds `get_file`, restricted to the metadata record (source lines 145-167
additionally read the content blob back from disk and merge it into the
returned dict; the acceptance daemon, the only verified caller, consumes
only the metadata fields of the result). -/
def get_file (fs : AGIFileSystem) (file_id : String) : Option FileRecord :=
  fs.files_metadata.get? file_id

/-- Embeds `update_file` (source lines 192-309).  Returns `none` when the id is
unknown.  When the new content hash equals the stored hash and the supplied
metadata is falsy (`None` or empty), returns the existing record and touches
nothing.  Otherwise creates a new version whose `parent_file_id` is the old
id, inserting it before the `try` block exactly as `add_file` does. -/
def update_file (sha256 : String → String) (fs : AGIFileSystem)
    (file_id new_content updater_id : String)
    (metadata : Option StrDict := none)
    (now : Timestamp := 0)
    (writeResult : Except String Unit := .ok ()) :
    Option (StoreResult × AGIFileSystem) :=
  match fs.files_metadata.get? file_id with
  | none => none
  | some old_file_metadata =>
    let new_content_str := new_content
    let new_content_hash := LineageHasher.hash_content sha256 new_content_str
    -- `if new_content_hash == old["content_hash"] and not metadata:`
    if new_content_hash = old_file_metadata.content_hash && metadataFalsy metadata then
      some (.ok old_file_metadata, fs)
    else
      let new_file_id := sha256 (old_file_metadata.file_name ++ "-" ++
        old_file_metadata.file_type ++ "-" ++ toString now ++ "-" ++ updater_id)
      let new_file_metadata : FileRecord := {
        file_id := new_file_id
        file_name := old_file_metadata.file_name
        file_type := old_file_metadata.file_type
        content_hash := new_content_hash
        creator_id := old_file_metadata.creator_id
        creation_timestamp := old_file_metadata.creation_timestamp
        iso_creation_timestamp := old_file_metadata.iso_creation_timestamp
        last_modified_timestamp := now
        iso_last_modified_timestamp := pyStrftime now
        parent_file_id := some file_id
        status := "updated"
        metadata := old_file_metadata.metadata.updateWith (metadata.getD SMap.empty)
        content_preview := pyPreview new_content_str 200 }
      let fs := { fs with
        files_metadata := fs.files_metadata.set new_file_id new_file_metadata }
      match writeResult with
      | .error e => some (.failed e, fs)
      | .ok _ =>
        let (_, hasher') := fs.lineage_hasher.record_artifact_hash sha256
          new_file_id new_file_metadata.file_type new_content_hash
          (some [old_file_metadata.content_hash])
          (some [("file_name", new_file_metadata.file_name),
                 ("updater_id", updater_id)])
          (some new_file_metadata.content_preview) none now
        let (_, g', hasher'') := BeliefEvolutionGraph.add_node sha256
          fs.belief_evolution_graph hasher' new_file_id
          new_file_metadata.file_type new_file_metadata.content_preview
          "active" (some now)
          (some [("file_name", new_file_metadata.file_name),
                 ("updater_id", updater_id),
                 ("content_hash", new_content_hash)])
          none now
        let g'' := (BeliefEvolutionGraph.add_edge sha256 g' file_id new_file_id
          "updated_to" (some now) none now).2
        some (.ok new_file_metadata,
          { files_metadata := fs.files_metadata
            lineage_hasher := hasher''
            belief_evolution_graph := g'' })

end AGIFileSystem

/-! ## Gatekeeper (`src/Gatekeeper.py`)

Static security/structural validator.  The Python `re` standard-library
calls are modelled by an abstract `RegexEngine` parameter (the regex
matcher is library code, not code of this repository); every pattern string
is carried verbatim so the engine receives exactly the source's rules.
Escapes: an apostrophe inside a pattern is written `\x27` and a literal
brace `\x7b`/`\x7d`, denoting the same characters. -/

/-- Contiguous-sublist check over character lists. -/
def listContainsSub (needle : List Char) : List Char → Bool
  | [] => needle.isEmpty
  | c :: rest => List.isPrefixOf needle (c :: rest) || listContainsSub needle rest

/-- Python `needle in haystack` on strings. -/
def pyIn (needle haystack : String) : Bool :=
  listContainsSub needle.data haystack.data

/-- Python `str.splitlines` for newline-separated text: split on the line
separator, with no empty trailing line (`"a\n".splitlines() == ["a"]`,
`"".splitlines() == []`). -/
def pySplitlines (s : String) : List String :=
  let parts := s.split (· = '\n')
  if parts.getLast? = some "" then parts.dropLast else parts

/-- The interface of the `re` standard-library calls `Gatekeeper` makes:
`re.search(pattern, code, re.MULTILINE | re.IGNORECASE)`, the
`re.findall` extraction of import targets, and `re.match(pattern, s)`. -/
structure RegexEngine where
  searchMI : String → String → Bool
  findallImports : String → List String
  matchPat : String → String → Bool

/-- One element of a report's `issues` list. -/
structure GKIssue where
  type : String
  description : String
  severity : String
  deriving Repr, DecidableEq

/-- The report dict built at the top of `validate_module` (source lines
88-93).  It has exactly the four keys `module_name`, `module_type`,
`validation_status` and `issues`; in particular it has *no* `details`
key. -/
structure GKReport where
  module_name : String
  module_type : String
  validation_status : String
  issues : List GKIssue
  deriving Repr, DecidableEq

namespace Gatekeeper

/-- Embeds `security_phrase_maps["prohibited_keywords"]` (source lines 26-35). -/
def prohibited_keywords : List String :=
  ["os.system", "eval(", "exec(", "pickle.load", "subprocess.run",
   "shutil.rmtree", "rm -rf",
   "import socket", "socket.connect", "socket.bind",
   "while True:", "for _ in range(infinity)",
   "sys.exit(", "raise SystemExit",
   "__import__",
   "ctypes",
   "threading.Thread", "multiprocessing.Process"]

/-- Embeds `security_phrase_maps["prohibited_regex_patterns"]` (source lines
36-57): `(pattern, severity)` pairs, pattern text verbatim. -/
def prohibited_regex_patterns : List (String × String) :=
  [("^\\s*import\\s+os\\s*$", "critical"),
   ("^\\s*import\\s+sys\\s*$", "critical"),
   ("^\\s*import\\s+subprocess\\s*$", "critical"),
   ("^\\s*import\\s+shutil\\s*$", "critical"),
   ("^\\s*import\\s+socket\\s*$", "critical"),
   ("file\\.write\\(.*?\\)", "high"),
   ("requests\\.(get|post|put|delete)\\(.*?\\)", "medium"),
   ("exec\\(.*?\\)", "critical"),
   ("eval\\(.*?\\)", "critical"),
   ("pickle\\.loads\\(.*?\\)", "critical"),
   ("^\\s*while\\s+True\\s*:\\s*$", "high"),
   ("^\\s*for\\s+_\\s+in\\s+range\\s*\\(\\s*(?:float\\(\x27inf\x27\\)|1e9)\\s*\\)\\s*:\\s*$", "high"),
   ("^\\s*import\\s+[^;]*?;\\s*os\\.system\\(", "critical"),
   ("^\\s*def\\s+malicious_function\\s*\\(", "critical"),
   ("^\\s*class\\s+EvilClass\\s*\\(", "critical"),
   ("^\\s*with\\s+open\\(.*?,\\s*[\x27\\\"]w[\x27\\\"]", "high"),
   ("^\\s*try\\s*:\\s*.*?except\\s+Exception\\s+as\\s+e:\\s*pass", "medium"),
   ("^\\s*print\\(.*?password.*?\\)", "medium"),
   ("^\\s*input\\(.*?\\)", "medium"),
   ("^\\s*time\\.sleep\\(\\s*(?:[1-9]\\d\x7b2,\x7d|[1-9]\\d\x7b3,\x7d)\\s*\\)", "medium")]

/-- Embeds `structural_rules["max_lines"]`. -/
def max_lines : Nat := 500

/-- Embeds `structural_rules["max_functions"]`. -/
def max_functions : Nat := 20

/-- Embeds `structural_rules["allowed_imports_regex"]` (source lines 63-78). -/
def allowed_imports_regex : List String :=
  ["^logging$", "^typing$", "^numpy$", "^asyncio$", "^fastapi$",
   "^os$", "^json$", "^time$", "^re$", "^hashlib$",
   "^uvicorn$", "^httpx$", "^aiohttp$",
   "^PIL$", "^cv2$", "^pyserial$", "^smbus$",
   "^transformers$", "^torch$", "^ollama$",
   "^telemetry_service$", "^lineage_hasher$", "^belief_evolution_graph$",
   "^abstracted_trait_vectorizer$", "^dvm_backend$", "^external_llm_ledger$",
   "^gemini_api_client$", "^geminisccmgenerator$", "^layer1_enforcer$",
   "^layer4_llm_client$", "^layer4_routing_daemon$", "^memory_compressor$",
   "^memory_compressor_daemon$", "^module_loader$", "^paradox_seeder$",
   "^semantic_divergence_analyzer$", "^trait_ancestry_ledger$",
   "^trait_conflict_resolver$", "^trait_heatmap_dashboard$",
   "^trait_mutator_daemon$", "^truth_drift_scanner$", "^agi_file_system$",
   "^uvicorn$"]

/-- Append one issue to a report. -/
def addIssue (report : GKReport) (type description severity : String) :
    GKReport :=
  { report with issues := report.issues ++ [⟨type, description, severity⟩] }

/-- Embeds `_check_security_patterns` (source lines 130-171): prohibited-keyword
substring scan (case-insensitive), prohibited-regex scan, then the
unauthorized-import scan over the deduplicated import targets (the source
iterates a Python `set`, whose order is unspecified; the model keeps first
occurrences).  Never raises: it only appends issues. -/
def check_security_patterns (re : RegexEngine) (code : String)
    (report : GKReport) : GKReport :=
  let code_lower := code.toLower
  let report := prohibited_keywords.foldl
    (fun r keyword =>
      if pyIn keyword.toLower code_lower then
        addIssue r "Security_Violation"
          ("Prohibited keyword found: " ++ keyword) "critical"
      else r)
    report
  let report := prohibited_regex_patterns.foldl
    (fun r p =>
      if re.searchMI p.1 code then
        addIssue r "Security_Violation"
          ("Prohibited regex pattern found: " ++ p.1) p.2
      else r)
    report
  let all_imports := (re.findallImports code).dedup
  all_imports.foldl
    (fun r imp =>
      if allowed_imports_regex.any (fun allowed => re.matchPat allowed imp) then
        r
      else
        addIssue r "Security_Violation"
          ("Unauthorized import detected: " ++ imp) "critical")
    report

/-- Embeds `_check_structural_rules` (source lines 174-235).  After the
line-count check, line 188 executes
`report["details"]["function_density"] = ...`; the report dict has no
`"details"` key (see `GKReport`), so this lookup raises `KeyError` for
every input.  The statements after line 188 — the function-count check,
the docstring checks and the contextual risky-pattern scan — are
unreachable on every execution and are therefore not modelled. -/
def check_structural_rules (code : String) (report : GKReport) :
    Except String GKReport :=
  let lines := pySplitlines code
  let num_lines := lines.length
  let report := if num_lines > max_lines then
      addIssue report "Structural_Violation"
        ("Module exceeds max lines (" ++ toString num_lines ++ "/" ++
          toString max_lines ++ ")") "medium"
    else report
  -- `report["details"]` on a dict without that key: KeyError
  let _ := report
  Except.error "KeyError: details"

/-- Embeds `validate_module` (source lines 83-127): build the report, run the
security checks, run the structural checks when the module type is
`python_code` (these raise, see `check_structural_rules`), then set the
final status to `rejected` iff any issue was collected. -/
def validate_module (re : RegexEngine) (module_code module_name : String)
    (module_type : String := "python_code") : Except String GKReport :=
  let report : GKReport := {
    module_name := module_name
    module_type := module_type
    validation_status := "approved"
    issues := [] }
  let report := check_security_patterns re module_code report
  match (if module_type = "python_code" then
          check_structural_rules module_code report
        else .ok report) with
  | .error e => .error e
  | .ok report =>
    if report.issues ≠ [] then
      .ok { report with validation_status := "rejected" }
    else
      .ok report

end Gatekeeper

/-! ## ModuleAcceptanceDaemon (`src/Module_acceptance_daemon.py`)

The multi-stage acceptance protocol `_execute_acceptance_protocol` (source
lines 213-319).  The gatekeeper and DVM-backend collaborators are injected
(`Any`-typed) dependencies; the protocol consumes only the report dict the
gatekeeper call returns and the `approved` field of the DVM verdict, so they
enter the model as explicit arguments.  (The concrete `Gatekeeper` of this
repository raises `KeyError` for `python_code` input — see
`Gatekeeper.check_structural_rules`; the theorems about the daemon are
conditioned on a returned report, as the claims are.)  The sandbox
simulation is repository code and is embedded concretely.  Docstring
extraction uses `re.search` and is modelled by the `extract_docstring`
function argument. -/

/-- Result of `_conceptual_sandbox_run` (`passed` + `reason`; the `logs`
list is decoration nothing reads). -/
structure SandboxResult where
  passed : Bool
  reason : String
  deriving Repr, DecidableEq

/-- Embeds `_conceptual_sandbox_run` (source lines 322-349): simulated outcomes
selected by literal marker substrings of the module code. -/
def conceptual_sandbox_run (module_code : String) : SandboxResult :=
  if pyIn "infinite_loop_test" module_code then
    ⟨false, "Simulated infinite loop detected."⟩
  else if pyIn "resource_hog_test" module_code then
    ⟨false, "Simulated excessive resource consumption."⟩
  else if pyIn "ethical_violation_test" module_code then
    ⟨false, "Simulated ethical violation detected in sandbox."⟩
  else
    ⟨true, "Conceptual sandbox run successful."⟩

/-- The `report["details"]` dict of the acceptance report, one optional
field per key the source ever sets. -/
structure AcceptanceDetails where
  gatekeeper_issues : Option (List GKIssue) := none
  dvm_approved : Option Bool := none
  sandbox_result : Option SandboxResult := none
  lineage_verification : Option String := none
  docstring_preview : Option String := none
  deriving Repr, DecidableEq

/-- The acceptance report built by `_execute_acceptance_protocol`. -/
structure AcceptanceReport where
  accepted : Bool
  reason : String
  details : AcceptanceDetails
  deriving Repr, DecidableEq

/-- Which collaborator gates a protocol run actually invoked, recorded for
the ordering claims: the gatekeeper call, the DVM `vet_proposition` call,
the `_conceptual_sandbox_run` call and the
`lineage_hasher.verify_lineage_chain` call. -/
structure ProtocolTrace where
  gatekeeper_invoked : Bool := false
  dvm_invoked : Bool := false
  sandbox_invoked : Bool := false
  lineage_invoked : Bool := false
  deriving Repr, DecidableEq

/-- Embeds `_execute_acceptance_protocol` (source lines 213-319).
Stage 1: gatekeeper re-validation — reject and return on
`validation_status == "rejected"`.
Stage 2: DVM ethical review — reject and return unless approved.
Stage 3: conceptual sandbox, only when `sandbox_enabled` — reject and
return on failure.
Stage 4: lineage verification — evaluated only when the file record exists
*and* the key `"parent_file_id"` is present in the record's nested
`metadata` dict (`"parent_file_id" in module_file_info.get("metadata", {})`);
on failure the report is marked rejected (no early return).
Stage 5: docstring preview. -/
def execute_acceptance_protocol
    (gatekeeper_report : GKReport) (dvm_approved : Bool)
    (sandbox_enabled : Bool) (fs : AGIFileSystem)
    (module_id module_code : String)
    (extract_docstring : String → String) :
    AcceptanceReport × ProtocolTrace :=
  let report : AcceptanceReport := ⟨true, "All checks passed", {}⟩
  let trace : ProtocolTrace := { gatekeeper_invoked := true }
  -- 1. Re-validation by Gatekeeper
  if gatekeeper_report.validation_status = "rejected" then
    ({ report with
        accepted := false
        reason := "Gatekeeper validation failed."
        details := { report.details with
          gatekeeper_issues := some gatekeeper_report.issues } },
     trace)
  else
    -- 2. Ethical review by DVMBackend
    let trace := { trace with dvm_invoked := true }
    if !dvm_approved then
      ({ report with
          accepted := false
          reason := "DVMBackend ethical review failed."
          details := { report.details with dvm_approved := some dvm_approved } },
       trace)
    else
      -- 3. Conceptual sandbox simulation (if enabled)
      let trace := if sandbox_enabled then
          { trace with sandbox_invoked := true }
        else trace
      let report := if sandbox_enabled then
          { report with details := { report.details with
              sandbox_result := some (conceptual_sandbox_run module_code) } }
        else report
      if sandbox_enabled && !(conceptual_sandbox_run module_code).passed then
        ({ report with
            accepted := false
            reason := "Conceptual sandbox simulation failed." },
         trace)
      else
        -- 4. Lineage verification, guarded by
        -- `module_file_info and "parent_file_id" in module_file_info.get("metadata", {})`
        let module_file_info := fs.get_file module_id
        let lineage_gate_applies :=
          match module_file_info with
          | some info => info.metadata.hasKey "parent_file_id"
          | none => false
        let trace := if lineage_gate_applies then
            { trace with lineage_invoked := true }
          else trace
        let report :=
          if lineage_gate_applies &&
              !(fs.lineage_hasher.verify_lineage_chain module_id) then
            { report with
                accepted := false
                reason := "Lineage chain verification failed."
                details := { report.details with
                  lineage_verification := some "Failed" } }
          else report
        -- 5. Docstring preview (no early return above this point on the
        -- lineage-failure path)
        let report := { report with details := { report.details with
            docstring_preview := some (extract_docstring module_code) } }
        (report, trace)

/-! ## Concrete instances used by witnesses and counterexamples -/

/-- A concrete stand-in for the SHA-256 hex digest used when evaluating the
model on closed inputs (the theorems quantified over `sha256` hold for every
function, this one merely makes witnesses computable). -/
def shaMock : String → String := fun s => s

/-- A concrete regex engine in which no pattern matches and no import is
extracted (sufficient for inputs where the relevant source regexes find
nothing). -/
def trivialRegexEngine : RegexEngine :=
  ⟨fun _ _ => false, fun _ => [], fun _ _ => false⟩

/-! ## Supporting lemmas -/

theorem pySorted_pair_comm (a b : String) : pySorted [a, b] = pySorted [b, a] := by
  unfold pySorted
  rcases le_total a b with hab | hba
  · by_cases hba' : b ≤ a
    · have hEq : a = b := le_antisymm hab hba'
      subst hEq
      rfl
    · simp [List.insertionSort, List.orderedInsert, hab, hba']
  · by_cases hab' : a ≤ b
    · have hEq : a = b := le_antisymm hab' hba
      subst hEq
      rfl
    · simp [List.insertionSort, List.orderedInsert, hba, hab']

/-! ## Claim theorems -/

/-- C5: for every artifact id, kind, content hash and pair of parent hashes
`p1`, `p2`, `LineageHasher.record_artifact_hash` invoked with parent list
`[p1, p2]` and with `[p2, p1]` at the same timestamp produces records with
identical `chain_hash`: the chain hash depends on the sorted parent hashes
only, not on their insertion order.  Holds for every hash function, every
prior hasher state and every optional argument. -/
theorem record_artifact_hash_chain_hash_parent_order_independent
    (sha256 : String → String) (h : LineageHasher)
    (artifact_id artifact_type content_hash p1 p2 : String)
    (metadata : Option StrDict) (content_preview : Option String)
    (dominant_traits : Option (List StrDict)) (now : Timestamp) :
    (h.record_artifact_hash sha256 artifact_id artifact_type content_hash
        (some [p1, p2]) metadata content_preview dominant_traits now).1.chain_hash =
    (h.record_artifact_hash sha256 artifact_id artifact_type content_hash
        (some [p2, p1]) metadata content_preview dominant_traits now).1.chain_hash := by
  simp only [LineageHasher.record_artifact_hash, pySorted_pair_comm p1 p2]

/-- C1 (counterexample): the claim "after a failed `add_file` the artifact
is absent from `files_metadata`" is false: with a failing write, the call
returns the failure dict of the `except` clause, yet the metadata entry —
inserted before the `try` block — is still present in `files_metadata`. -/
theorem add_file_write_failure_entry_remains :
    ((AGIFileSystem.add_file shaMock AGIFileSystem.init "parent" "python_code"
        "A" "creator" none none 0 (Except.error "disk full")).1 =
      StoreResult.failed "disk full") ∧
    ((AGIFileSystem.add_file shaMock AGIFileSystem.init "parent" "python_code"
        "A" "creator" none none 0 (Except.error "disk full")).2.files_metadata.hasKey
      "parent-python_code-0-creator" = true) := by
  constructor <;> rfl

/-- C1 (amended): if the physical write raises, `add_file` returns the
failure record `{"status": "failed", "message": str(e)}` instead of raising
a `StorageError`; no lineage record and no graph node are created (the
hasher and graph states are untouched), but the artifact's metadata entry,
inserted before the `try` block, remains visible in `files_metadata`. -/
theorem add_file_write_failure_state (sha256 : String → String)
    (fs : AGIFileSystem) (file_name file_type content creator_id : String)
    (parent_file_id : Option String) (metadata : Option StrDict)
    (now : Timestamp) (e : String) :
    (AGIFileSystem.add_file sha256 fs file_name file_type content creator_id
        parent_file_id metadata now (Except.error e)).1 = StoreResult.failed e ∧
    ((AGIFileSystem.add_file sha256 fs file_name file_type content creator_id
        parent_file_id metadata now (Except.error e)).2.files_metadata.hasKey
      (sha256 (file_name ++ "-" ++ file_type ++ "-" ++ toString now ++ "-" ++
        creator_id)) = true) ∧
    (AGIFileSystem.add_file sha256 fs file_name file_type content creator_id
        parent_file_id metadata now (Except.error e)).2.lineage_hasher =
      fs.lineage_hasher ∧
    (AGIFileSystem.add_file sha256 fs file_name file_type content creator_id
        parent_file_id metadata now (Except.error e)).2.belief_evolution_graph =
      fs.belief_evolution_graph := by
  refine ⟨rfl, ?_, rfl, rfl⟩
  simp only [AGIFileSystem.add_file, SMap.hasKey, SMap.get?_set_self,
    Option.isSome_some]

/-- C2: the claim "for every content string, module name and module type
(including `python_code`), `validate_module` returns a complete report
without raising" fails: for module type `python_code` the structural check
executes `report["details"]["function_density"] = ...` on a report dict
that has no `details` key, so `validate_module` raises `KeyError` for every
content string, every module name and every regex engine. -/
theorem validate_module_python_code_always_raises (re : RegexEngine)
    (module_code module_name : String) :
    Gatekeeper.validate_module re module_code module_name "python_code" =
      Except.error "KeyError: details" := rfl

/-- C3 scenario, stage 1: an artifact is stored with a failing physical
write, so its metadata entry exists but no lineage record does. -/
def c3_step1 : StoreResult × AGIFileSystem :=
  AGIFileSystem.add_file shaMock AGIFileSystem.init "parent" "python_code"
    "A" "creator" none none 0 (Except.error "disk full")

/-- C3 scenario, stage 2: a child artifact is stored successfully with
`parent_file_id` pointing at the stage-1 artifact and an empty caller
metadata dict — exactly what `add_file` produces for a parented version. -/
def c3_step2 : StoreResult × AGIFileSystem :=
  AGIFileSystem.add_file shaMock c3_step1.2 "child" "python_code" "B"
    "creator" (some "parent-python_code-0-creator") (some []) 1 (Except.ok ())

/-- The store id of the stage-2 child artifact. -/
def c3_child_id : String := "child-python_code-1-creator"

/-- C3 scenario, stage 3: a graph-node content update on the child rewrites
its lineage record with a parent hash that no stored record resolves, so
`verify_lineage_chain` on the child now fails. -/
def c3_step3 : Bool × BeliefEvolutionGraph × LineageHasher :=
  BeliefEvolutionGraph.update_node shaMock 2 c3_step2.2.belief_evolution_graph
    c3_step2.2.lineage_hasher c3_child_id (some "X") none none "editor"

/-- The C3 scenario state: child stored with a `parent_file_id` in its store
record, lineage verification of the child failing. -/
def c3_fs : AGIFileSystem :=
  { c3_step2.2 with
    belief_evolution_graph := c3_step3.2.1
    lineage_hasher := c3_step3.2.2 }

/-- C3: the claim "for a pending artifact that passes PolicyGate, the
ethics check and the Sandbox and whose store record carries a
`parent_file_id`, the protocol evaluates `verify_lineage_chain` as the
fourth gate and rejects on failure" is contradicted by the code: the gate
guard reads `"parent_file_id" in module_file_info.get("metadata", {})` —
the nested caller-metadata dict, which `add_file` never populates with that
key — instead of the top-level `parent_file_id` field, so for this child
artifact (whose record carries `parent_file_id` and whose lineage
verification fails) the lineage gate is never invoked and the artifact is
accepted. -/
theorem acceptance_protocol_skips_lineage_gate_for_parented_artifact :
    ((c3_fs.get_file c3_child_id).map (fun m => m.parent_file_id) =
      some (some "parent-python_code-0-creator")) ∧
    (c3_fs.lineage_hasher.verify_lineage_chain c3_child_id = false) ∧
    ((execute_acceptance_protocol ⟨"child", "python_code", "approved", []⟩
        true true c3_fs c3_child_id "B" (fun _ => "No docstring found.")).1.accepted
      = true) ∧
    ((execute_acceptance_protocol ⟨"child", "python_code", "approved", []⟩
        true true c3_fs c3_child_id "B" (fun _ => "No docstring found.")).2.lineage_invoked
      = false) :=
  ⟨rfl, rfl, rfl, rfl⟩

/-- C4: `update_file` called on a stored artifact with content whose hash
equals the stored `content_hash` and with no metadata supplied is a no-op:
it returns the existing record (same `file_id`) and the entire store state
— metadata map, lineage hasher and graph — is unchanged. -/
theorem update_file_same_hash_no_metadata_noop (sha256 : String → String)
    (fs : AGIFileSystem) (file_id new_content updater_id : String)
    (now : Timestamp) (writeResult : Except String Unit) (old : FileRecord)
    (hfound : fs.files_metadata.get? file_id = some old)
    (hhash : LineageHasher.hash_content sha256 new_content = old.content_hash) :
    AGIFileSystem.update_file sha256 fs file_id new_content updater_id none
      now writeResult = some (StoreResult.ok old, fs) := by
  simp [AGIFileSystem.update_file, hfound, hhash, AGIFileSystem.metadataFalsy]

/-- A one-artifact store used to instantiate the C4 theorem. -/
def c4_old : FileRecord :=
  { file_id := "f-t-0-u"
    file_name := "f"
    file_type := "t"
    content_hash := "c"
    creator_id := "u"
    creation_timestamp := 0
    iso_creation_timestamp := pyStrftime 0
    last_modified_timestamp := 0
    iso_last_modified_timestamp := pyStrftime 0
    parent_file_id := none
    status := "stored"
    metadata := SMap.empty
    content_preview := "c" }

/-- The C4 witness store state. -/
def c4_fs : AGIFileSystem :=
  { files_metadata := [("f-t-0-u", c4_old)]
    lineage_hasher := LineageHasher.init
    belief_evolution_graph := BeliefEvolutionGraph.init }

/-- C4 witness: the no-op law evaluated at a concrete store. -/
theorem update_file_same_hash_no_metadata_noop_witness :
    AGIFileSystem.update_file shaMock c4_fs "f-t-0-u" "c" "upd" none 5
      (Except.ok ()) = some (StoreResult.ok c4_old, c4_fs) :=
  update_file_same_hash_no_metadata_noop shaMock c4_fs "f-t-0-u" "c" "upd" 5
    (Except.ok ()) c4_old rfl rfl

/-- C6: for every artifact whose gatekeeper report has status `rejected`,
the acceptance protocol invokes no later gate — the DVM ethics check, the
sandbox and the lineage verification are all left uninvoked — and the
artifact is rejected with the gatekeeper reason.  Holds for every sandbox
flag, store state and module. -/
theorem acceptance_protocol_halts_at_rejected_gatekeeper
    (gatekeeper_report : GKReport) (dvm_approved sandbox_enabled : Bool)
    (fs : AGIFileSystem) (module_id module_code : String)
    (extract_docstring : String → String)
    (hrej : gatekeeper_report.validation_status = "rejected") :
    ((execute_acceptance_protocol gatekeeper_report dvm_approved
        sandbox_enabled fs module_id module_code extract_docstring).2.dvm_invoked
      = false) ∧
    ((execute_acceptance_protocol gatekeeper_report dvm_approved
        sandbox_enabled fs module_id module_code extract_docstring).2.sandbox_invoked
      = false) ∧
    ((execute_acceptance_protocol gatekeeper_report dvm_approved
        sandbox_enabled fs module_id module_code extract_docstring).2.lineage_invoked
      = false) ∧
    ((execute_acceptance_protocol gatekeeper_report dvm_approved
        sandbox_enabled fs module_id module_code extract_docstring).1.accepted
      = false) ∧
    ((execute_acceptance_protocol gatekeeper_report dvm_approved
        sandbox_enabled fs module_id module_code extract_docstring).1.reason
      = "Gatekeeper validation failed.") := by
  simp [execute_acceptance_protocol, hrej]

/-- C6 witness: the halting law evaluated on a concretely rejected report,
with the sandbox feature enabled and module code that would trip the
sandbox markers if it were ever run. -/
theorem acceptance_protocol_halts_at_rejected_gatekeeper_witness :
    ((execute_acceptance_protocol
        ⟨"m", "python_code", "rejected", [⟨"Security_Violation", "k", "critical"⟩]⟩
        true true c4_fs "m-id" "infinite_loop_test"
        (fun _ => "No docstring found.")).2.dvm_invoked = false) ∧
    ((execute_acceptance_protocol
        ⟨"m", "python_code", "rejected", [⟨"Security_Violation", "k", "critical"⟩]⟩
        true true c4_fs "m-id" "infinite_loop_test"
        (fun _ => "No docstring found.")).2.sandbox_invoked = false) ∧
    ((execute_acceptance_protocol
        ⟨"m", "python_code", "rejected", [⟨"Security_Violation", "k", "critical"⟩]⟩
        true true c4_fs "m-id" "infinite_loop_test"
        (fun _ => "No docstring found.")).2.lineage_invoked = false) ∧
    ((execute_acceptance_protocol
        ⟨"m", "python_code", "rejected", [⟨"Security_Violation", "k", "critical"⟩]⟩
        true true c4_fs "m-id" "infinite_loop_test"
        (fun _ => "No docstring found.")).1.accepted = false) ∧
    ((execute_acceptance_protocol
        ⟨"m", "python_code", "rejected", [⟨"Security_Violation", "k", "critical"⟩]⟩
        true true c4_fs "m-id" "infinite_loop_test"
        (fun _ => "No docstring found.")).1.reason
      = "Gatekeeper validation failed.") :=
  acceptance_protocol_halts_at_rejected_gatekeeper
    ⟨"m", "python_code", "rejected", [⟨"Security_Violation", "k", "critical"⟩]⟩
    true true c4_fs "m-id" "infinite_loop_test" (fun _ => "No docstring found.")
    rfl

/-- A one-node graph (node `n1`, created at time 0) used by the graph
claims. -/
def c7_start : BeliefEvolutionGraph.AddNodeResult × BeliefEvolutionGraph × LineageHasher :=
  BeliefEvolutionGraph.add_node shaMock BeliefEvolutionGraph.init
    LineageHasher.init "n1" "belief" "c" "active" (some 0) none none 0

/-- The node record stored for `n1` in `c7_start`. -/
def c7_node : GraphNode :=
  { id := "n1"
    type := "belief"
    content := "c"
    status := "active"
    creation_timestamp := 0
    iso_creation_timestamp := pyStrftime 0
    last_updated_timestamp := 0
    iso_last_updated_timestamp := pyStrftime 0
    metadata := SMap.empty }

/-- C7 (counterexample): the claim "an `update_node` call whose arguments
change nothing returns `false` and performs no timestamp bump" is false
when a metadata dict is supplied: updating `n1` (last updated at 0) with no
content, no status and the *empty* metadata dict — which changes nothing —
returns `true` and bumps `last_updated_timestamp` to the call time 1,
because the source sets `metadata_changed = True` whenever a metadata
argument is present, without comparing contents. -/
theorem update_node_empty_metadata_bumps_timestamp :
    ((c7_start.2.1.nodes.get? "n1").map (fun n => n.last_updated_timestamp)
      = some 0) ∧
    ((BeliefEvolutionGraph.update_node shaMock 1 c7_start.2.1 c7_start.2.2
        "n1" none none (some SMap.empty)
        "BeliefEvolutionGraph_Internal").1 = true) ∧
    (((BeliefEvolutionGraph.update_node shaMock 1 c7_start.2.1 c7_start.2.2
        "n1" none none (some SMap.empty)
        "BeliefEvolutionGraph_Internal").2.1.nodes.get? "n1").map
      (fun n => n.last_updated_timestamp) = some 1) :=
  ⟨rfl, rfl, rfl⟩

/-- C7 (amended): `update_node` returns `false` and leaves the node — its
`last_updated_timestamp` included — and the whole graph and hasher state
unchanged when the supplied content is absent or equal to the current
content, the supplied status is absent or equal to the current status, and
*no metadata argument is supplied*; a supplied metadata dict, even one that
introduces no actual change, is always counted as a change. -/
theorem update_node_noop_without_metadata (sha256 : String → String)
    (now : Timestamp) (g : BeliefEvolutionGraph) (hasher : LineageHasher)
    (node_id : String) (new_content new_status : Option String)
    (updater_id : String) (node : GraphNode)
    (hnode : g.nodes.get? node_id = some node)
    (hc : new_content = none ∨ new_content = some node.content)
    (hs : new_status = none ∨ new_status = some node.status) :
    BeliefEvolutionGraph.update_node sha256 now g hasher node_id new_content
      new_status none updater_id = (false, g, hasher) := by
  rcases hc with rfl | rfl <;> rcases hs with rfl | rfl <;>
    simp [BeliefEvolutionGraph.update_node, hnode]

/-- C7 witness: the no-op law evaluated on the concrete one-node graph,
re-supplying the node's current content and status and no metadata. -/
theorem update_node_noop_without_metadata_witness :
    BeliefEvolutionGraph.update_node shaMock 9 c7_start.2.1 c7_start.2.2
      "n1" (some "c") (some "active") none "BeliefEvolutionGraph_Internal"
      = (false, c7_start.2.1, c7_start.2.2) :=
  update_node_noop_without_metadata shaMock 9 c7_start.2.1 c7_start.2.2
    "n1" (some "c") (some "active") "BeliefEvolutionGraph_Internal" c7_node
    rfl (Or.inr rfl) (Or.inr rfl)

/-- Dict assignment preserves the presence of every key. -/
theorem SMap.hasKey_set_of_hasKey {α : Type} (d : SMap α) (k k' : String)
    (v : α) (h : d.hasKey k' = true) : (d.set k v).hasKey k' = true := by
  induction d with
  | nil => simp [SMap.hasKey, SMap.get?] at h
  | cons hd tl ih =>
    obtain ⟨k0, v0⟩ := hd
    by_cases hk : k0 = k
    · subst hk
      by_cases hk' : k0 = k'
      · simp [SMap.set, SMap.hasKey, SMap.get?, hk']
      · simp only [SMap.hasKey, SMap.get?, hk', if_neg, not_false_iff] at h
        simp [SMap.set, SMap.hasKey, SMap.get?, hk', h]
    · by_cases hk' : k0 = k'
      · subst hk'
        simp [SMap.set, SMap.hasKey, SMap.get?, hk]
      · simp only [SMap.hasKey, SMap.get?, hk', if_neg, not_false_iff] at h
        simp only [SMap.set, hk, if_neg, not_false_iff, SMap.hasKey,
          SMap.get?, hk']
        exact ih h

/-- Lemma: `update_node` never touches the edge list. -/
theorem update_node_edges_unchanged (sha256 : String → String)
    (now : Timestamp) (g : BeliefEvolutionGraph) (hasher : LineageHasher)
    (node_id : String) (new_content new_status : Option String)
    (new_metadata : Option StrDict) (updater_id : String) :
    (BeliefEvolutionGraph.update_node sha256 now g hasher node_id new_content
      new_status new_metadata updater_id).2.1.edges = g.edges := by
  unfold BeliefEvolutionGraph.update_node
  cases hg : g.nodes.get? node_id with
  | none => rfl
  | some node =>
    simp only
    split <;> rfl

/-- Lemma: `update_node` preserves the presence of every node key. -/
theorem update_node_hasKey_preserved (sha256 : String → String)
    (now : Timestamp) (g : BeliefEvolutionGraph) (hasher : LineageHasher)
    (node_id : String) (new_content new_status : Option String)
    (new_metadata : Option StrDict) (updater_id : String) (k : String)
    (h : g.nodes.hasKey k = true) :
    (BeliefEvolutionGraph.update_node sha256 now g hasher node_id new_content
      new_status new_metadata updater_id).2.1.nodes.hasKey k = true := by
  unfold BeliefEvolutionGraph.update_node
  cases hg : g.nodes.get? node_id with
  | none => exact h
  | some node =>
    simp only
    split
    · exact SMap.hasKey_set_of_hasKey _ _ _ _ h
    · exact h

/-- Lemma: `add_edge` preserves the endpoint invariant: the appended edge is
guarded by the presence of both endpoints. -/
theorem edgesValid_add_edge (sha256 : String → String)
    (g : BeliefEvolutionGraph) (source target edge_type : String)
    (ts : Option Timestamp) (md : Option StrDict) (now : Timestamp)
    (h : EdgesValid g) :
    EdgesValid (BeliefEvolutionGraph.add_edge sha256 g source target
      edge_type ts md now).2 := by
  unfold BeliefEvolutionGraph.add_edge
  by_cases hg : (g.nodes.hasKey source && g.nodes.hasKey target) = true
  · simp only [hg, if_true]
    intro e he
    simp only [List.mem_append, List.mem_singleton] at he
    rcases he with he | rfl
    · exact h e he
    · rw [Bool.and_eq_true] at hg
      exact ⟨hg.1, hg.2⟩
  · simp only [hg, if_false]
    exact h

/-- Lemma: `update_node` preserves the endpoint invariant: edges untouched, node
keys preserved. -/
theorem edgesValid_update_node (sha256 : String → String) (now : Timestamp)
    (g : BeliefEvolutionGraph) (hasher : LineageHasher) (node_id : String)
    (new_content new_status : Option String) (new_metadata : Option StrDict)
    (updater_id : String) (h : EdgesValid g) :
    EdgesValid (BeliefEvolutionGraph.update_node sha256 now g hasher node_id
      new_content new_status new_metadata updater_id).2.1 := by
  intro e he
  rw [update_node_edges_unchanged] at he
  exact ⟨update_node_hasKey_preserved sha256 now g hasher node_id new_content
      new_status new_metadata updater_id e.source (h e he).1,
    update_node_hasKey_preserved sha256 now g hasher node_id new_content
      new_status new_metadata updater_id e.target (h e he).2⟩

/-- Inserting a node preserves the endpoint invariant (node set only
grows). -/
theorem edgesValid_nodes_set (g : BeliefEvolutionGraph) (k : String)
    (v : GraphNode) (h : EdgesValid g) :
    EdgesValid { g with nodes := g.nodes.set k v } := by
  intro e he
  exact ⟨SMap.hasKey_set_of_hasKey _ _ _ _ (h e he).1,
    SMap.hasKey_set_of_hasKey _ _ _ _ (h e he).2⟩

/-- Lemma: `add_node` preserves the endpoint invariant on both its paths. -/
theorem edgesValid_add_node (sha256 : String → String)
    (g : BeliefEvolutionGraph) (hasher : LineageHasher)
    (node_id node_type content status : String) (ts : Option Timestamp)
    (md : Option StrDict) (parent : Option String) (now : Timestamp)
    (h : EdgesValid g) :
    EdgesValid (BeliefEvolutionGraph.add_node sha256 g hasher node_id
      node_type content status ts md parent now).2.1 := by
  unfold BeliefEvolutionGraph.add_node
  by_cases hg : g.nodes.hasKey node_id = true
  · rw [if_pos hg]
    exact edgesValid_update_node sha256 now g hasher node_id (some content)
      (some status) md "BeliefEvolutionGraph_Internal" h
  · rw [if_neg hg]
    cases parent with
    | none => exact edgesValid_nodes_set g node_id _ h
    | some pid =>
      simp only
      split
      · exact edgesValid_add_edge sha256 _ pid node_id "parent_of"
          (some (ts.getD now)) none now (edgesValid_nodes_set g node_id _ h)
      · exact edgesValid_nodes_set g node_id _ h

/-- Every single operation preserves the endpoint invariant. -/
theorem edgesValid_apply (sha256 : String → String) (op : GraphOp)
    (st : BeliefEvolutionGraph × LineageHasher) (h : EdgesValid st.1) :
    EdgesValid (op.apply sha256 st).1 := by
  obtain ⟨g, hasher⟩ := st
  cases op with
  | addNode node_id node_type content status ts md parent now =>
    exact edgesValid_add_node sha256 g hasher node_id node_type content
      status ts md parent now h
  | updateNode node_id nc ns nm u now =>
    exact edgesValid_update_node sha256 now g hasher node_id nc ns nm u h
  | addEdge s t et ts md now =>
    exact edgesValid_add_edge sha256 g s t et ts md now h

/-- Operation sequences preserve the endpoint invariant. -/
theorem edgesValid_run (sha256 : String → String) (ops : List GraphOp)
    (st : BeliefEvolutionGraph × LineageHasher) (h : EdgesValid st.1) :
    EdgesValid (GraphOp.run sha256 ops st).1 := by
  induction ops generalizing st with
  | nil => exact h
  | cons op rest ih =>
    exact ih (op.apply sha256 st) (edgesValid_apply sha256 op st h)

/-- C8: in every graph state reachable by any sequence of `add_node`,
`update_node` and `add_edge` calls from the empty graph, every edge's
source and target are present as nodes; and `add_edge` with an absent
endpoint is rejected — it returns no edge id and leaves the graph
unchanged. -/
theorem graph_edge_endpoints_always_present (sha256 : String → String) :
    (∀ ops : List GraphOp,
      EdgesValid (GraphOp.run sha256 ops
        (BeliefEvolutionGraph.init, LineageHasher.init)).1) ∧
    (∀ (g : BeliefEvolutionGraph) (source target edge_type : String)
        (ts : Option Timestamp) (md : Option StrDict) (now : Timestamp),
      (g.nodes.hasKey source && g.nodes.hasKey target) = false →
      BeliefEvolutionGraph.add_edge sha256 g source target edge_type ts md now
        = (none, g)) := by
  constructor
  · intro ops
    refine edgesValid_run sha256 ops _ ?_
    intro e he
    simp [BeliefEvolutionGraph.init] at he
  · intro g source target edge_type ts md now habs
    unfold BeliefEvolutionGraph.add_edge
    simp [habs]

/-- C8 witness: the invariant evaluated on a concrete operation sequence
(insert a node, add a self-loop), and the rejection of `add_edge` on the
empty graph, where both endpoints are absent. -/
theorem graph_edge_endpoints_always_present_witness :
    EdgesValid (GraphOp.run shaMock
      [GraphOp.addNode "a" "belief" "c" "active" (some 0) none none 0,
       GraphOp.addEdge "a" "a" "loop" (some 0) none 0]
      (BeliefEvolutionGraph.init, LineageHasher.init)).1 ∧
    BeliefEvolutionGraph.add_edge shaMock BeliefEvolutionGraph.init "a" "b"
      "k" none none 0 = (none, BeliefEvolutionGraph.init) :=
  ⟨(graph_edge_endpoints_always_present shaMock).1 _,
   (graph_edge_endpoints_always_present shaMock).2 BeliefEvolutionGraph.init
     "a" "b" "k" none none 0 rfl⟩

/-- The one-node graph with a self-loop on `n1`, used by the subgraph
claim. -/
def c9_g : BeliefEvolutionGraph :=
  (BeliefEvolutionGraph.add_edge shaMock c7_start.2.1 "n1" "n1" "loop"
    (some 0) none 0).2

/-- C9 (counterexample): the claim "`get_subgraph(center, 0)` returns
exactly the single node `center` and an *empty* edge list under any set of
edges" fails when `center` carries a self-loop: the edge-collection pass
keeps every edge with both endpoints inside the collected node set
`{center}`, so the self-loop is returned. -/
theorem get_subgraph_radius_zero_keeps_self_loop :
    ((BeliefEvolutionGraph.get_subgraph c9_g "n1" 0).nodes = [c7_node]) ∧
    ((BeliefEvolutionGraph.get_subgraph c9_g "n1" 0).edges ≠ []) := by
  refine ⟨rfl, ?_⟩
  decide

/-- The `while` loop of `get_subgraph` with an exhausted queue returns the
collected nodes, whatever fuel remains. -/
theorem subgraphLoop_empty_queue (g : BeliefEvolutionGraph) (r m : Nat)
    (v : List String) (s : SMap GraphNode) :
    BeliefEvolutionGraph.subgraphLoop g r m [] v s = s := by
  cases m <;> rfl

/-- With radius 0, the single loop iteration only records the centre
node. -/
theorem subgraphLoop_radius_zero_step (g : BeliefEvolutionGraph) (m : Nat)
    (center : String) (v : List String) (s : SMap GraphNode) :
    BeliefEvolutionGraph.subgraphLoop g 0 (m + 1) [(center, 0)] v s =
      match g.get_node center with
      | some node_data => s.set center node_data
      | none => s := by
  cases hg : g.get_node center <;>
    simp [BeliefEvolutionGraph.subgraphLoop, hg, subgraphLoop_empty_queue]

/-- C9 (amended): for every graph containing the node `center`,
`get_subgraph(center, 0)` returns exactly the single node `center`
together with exactly the self-loop edges on `center` (edges whose source
and target both equal `center`); in particular the edge list is empty
whenever `center` has no self-loop. -/
theorem get_subgraph_radius_zero_center_only (g : BeliefEvolutionGraph)
    (center : String) (node : GraphNode)
    (h : g.nodes.get? center = some node) :
    BeliefEvolutionGraph.get_subgraph g center 0 =
      ⟨[node], g.edges.filter
        (fun e => e.source = center && e.target = center)⟩ := by
  have h' : g.get_node center = some node := h
  unfold BeliefEvolutionGraph.get_subgraph
  dsimp only
  rw [subgraphLoop_radius_zero_step, h']
  have hfilter : g.edges.filter
      (fun e => (SMap.set SMap.empty center node).hasKey e.source &&
        (SMap.set SMap.empty center node).hasKey e.target) =
      g.edges.filter (fun e => e.source = center && e.target = center) := by
    apply List.filter_congr
    intro e _
    have hsrc : (SMap.set SMap.empty center node).hasKey e.source =
        decide (e.source = center) := by
      simp only [SMap.set, SMap.empty, SMap.hasKey, SMap.get?]
      by_cases hx : center = e.source
      · simp [hx]
      · simp [hx, Ne.symm hx]
    have htgt : (SMap.set SMap.empty center node).hasKey e.target =
        decide (e.target = center) := by
      simp only [SMap.set, SMap.empty, SMap.hasKey, SMap.get?]
      by_cases hx : center = e.target
      · simp [hx]
      · simp [hx, Ne.symm hx]
    rw [hsrc, htgt]
  rw [hfilter]
  rfl

/-- C9 witness: the amended law evaluated on the one-node, no-edge graph. -/
theorem get_subgraph_radius_zero_center_only_witness :
    BeliefEvolutionGraph.get_subgraph c7_start.2.1 "n1" 0 =
      ⟨[c7_node], []⟩ :=
  get_subgraph_radius_zero_center_only c7_start.2.1 "n1" c7_node rfl

/-- Lemma: `update_node` never changes the number of stored nodes. -/
theorem update_node_nodes_length (sha256 : String → String)
    (now : Timestamp) (g : BeliefEvolutionGraph) (hasher : LineageHasher)
    (node_id : String) (new_content new_status : Option String)
    (new_metadata : Option StrDict) (updater_id : String) :
    (BeliefEvolutionGraph.update_node sha256 now g hasher node_id new_content
      new_status new_metadata updater_id).2.1.nodes.length = g.nodes.length := by
  unfold BeliefEvolutionGraph.update_node
  cases hg : g.nodes.get? node_id with
  | none => rfl
  | some node =>
    simp only
    split
    · exact SMap.length_set _ _ _ (by simp [SMap.hasKey, hg])
    · rfl

/-- C10: `add_node` called with a `node_id` already present inserts no
second node and delegates to `update_node` with the supplied content,
status and metadata: the whole call result — value, graph and hasher — is
exactly the `update_node` result wrapped in the boolean-returning
constructor (so the caller receives `update_node`'s boolean, not a node
id), the supplied `parent_node_id` is ignored (the edge list is unchanged,
no `parent_of` edge), and the node count is unchanged. -/
theorem add_node_existing_id_delegates_to_update (sha256 : String → String)
    (g : BeliefEvolutionGraph) (hasher : LineageHasher)
    (node_id node_type content status : String) (ts : Option Timestamp)
    (md : Option StrDict) (parent : Option String) (now : Timestamp)
    (hexists : g.nodes.hasKey node_id = true) :
    (BeliefEvolutionGraph.add_node sha256 g hasher node_id node_type content
        status ts md parent now =
      (BeliefEvolutionGraph.AddNodeResult.updated
        (BeliefEvolutionGraph.update_node sha256 now g hasher node_id
          (some content) (some status) md).1,
       (BeliefEvolutionGraph.update_node sha256 now g hasher node_id
          (some content) (some status) md).2.1,
       (BeliefEvolutionGraph.update_node sha256 now g hasher node_id
          (some content) (some status) md).2.2)) ∧
    ((BeliefEvolutionGraph.add_node sha256 g hasher node_id node_type content
        status ts md parent now).2.1.edges = g.edges) ∧
    ((BeliefEvolutionGraph.add_node sha256 g hasher node_id node_type content
        status ts md parent now).2.1.nodes.length = g.nodes.length) := by
  have hdeleg : BeliefEvolutionGraph.add_node sha256 g hasher node_id
      node_type content status ts md parent now =
      (BeliefEvolutionGraph.AddNodeResult.updated
        (BeliefEvolutionGraph.update_node sha256 now g hasher node_id
          (some content) (some status) md).1,
       (BeliefEvolutionGraph.update_node sha256 now g hasher node_id
          (some content) (some status) md).2.1,
       (BeliefEvolutionGraph.update_node sha256 now g hasher node_id
          (some content) (some status) md).2.2) := by
    unfold BeliefEvolutionGraph.add_node
    rw [if_pos hexists]
  refine ⟨hdeleg, ?_, ?_⟩
  · rw [hdeleg]
    exact update_node_edges_unchanged sha256 now g hasher node_id
      (some content) (some status) md "BeliefEvolutionGraph_Internal"
  · rw [hdeleg]
    exact update_node_nodes_length sha256 now g hasher node_id
      (some content) (some status) md "BeliefEvolutionGraph_Internal"

/-- C10 witness: re-adding the existing node `n1` with a parent supplied —
the call returns `update_node`'s boolean, adds no node and no `parent_of`
edge. -/
theorem add_node_existing_id_delegates_to_update_witness :
    (BeliefEvolutionGraph.add_node shaMock c7_start.2.1 c7_start.2.2 "n1"
        "belief" "c2" "active" (some 5) none (some "n1") 5 =
      (BeliefEvolutionGraph.AddNodeResult.updated
        (BeliefEvolutionGraph.update_node shaMock 5 c7_start.2.1 c7_start.2.2
          "n1" (some "c2") (some "active") none).1,
       (BeliefEvolutionGraph.update_node shaMock 5 c7_start.2.1 c7_start.2.2
          "n1" (some "c2") (some "active") none).2.1,
       (BeliefEvolutionGraph.update_node shaMock 5 c7_start.2.1 c7_start.2.2
          "n1" (some "c2") (some "active") none).2.2)) ∧
    ((BeliefEvolutionGraph.add_node shaMock c7_start.2.1 c7_start.2.2 "n1"
        "belief" "c2" "active" (some 5) none (some "n1") 5).2.1.edges =
      c7_start.2.1.edges) ∧
    ((BeliefEvolutionGraph.add_node shaMock c7_start.2.1 c7_start.2.2 "n1"
        "belief" "c2" "active" (some 5) none (some "n1") 5).2.1.nodes.length =
      c7_start.2.1.nodes.length) :=
  add_node_existing_id_delegates_to_update shaMock c7_start.2.1 c7_start.2.2
    "n1" "belief" "c2" "active" (some 5) none (some "n1") 5 rfl
